import Mathlib

/-!
Shallow embedding of the motion-detection core of the PiWebcam server
(`webcam.py`): the frame comparator `compare_frames`, the in-memory
snapshot store `save_motion_snapshot`, the `MotionDetector` state
machine, and the per-cycle logic of `monitoring_loop`.

Frames are modelled semantically: a Python `bytes` value handed to the
comparator either is `None` (`Option.none`), fails to decode
(`Frame.corrupt`), or decodes to a grayscale pixel array (`Frame.img`).
Python floats are modelled as rationals; `time.time()` is an explicit
`now` argument.
-/

namespace PiWebcam

/-- A decoded grayscale image: `np.array(img.convert(toL), dtype=np.int16)`
as a list of rows of pixel intensities. -/
structure Img where
  data : List (List Nat)
deriving DecidableEq, Repr

/-- Number of rows (`arr.shape[0]`). -/
def Img.h (m : Img) : Nat := m.data.length

/-- Number of columns (`arr.shape[1]`, taken from the first row). -/
def Img.w (m : Img) : Nat := (m.data.headD []).length

/-- Pixel intensity at row `i`, column `j`. -/
def Img.pix (m : Img) (i j : Nat) : Nat := (m.data.getD i []).getD j 0

/-- A decoded image is well formed when it is a nonempty rectangle,
which is what a real image decoder always produces. -/
def Img.wf (m : Img) : Prop :=
  0 < m.h ∧ 0 < m.w ∧ ∀ r ∈ m.data, r.length = m.w

instance (m : Img) : Decidable m.wf := by
  unfold Img.wf; infer_instance

/-- The semantic content of a Python `bytes` frame: either bytes that
PIL fails to decode (`corrupt`, tagged so distinct byte strings stay
distinct), or bytes decoding to a grayscale image. -/
inductive Frame where
  | corrupt (tag : Nat)
  | img (m : Img)
deriving DecidableEq, Repr

/-- Well-formedness of an optional frame argument. -/
def FrameWf : Option Frame → Prop
  | some (.img m) => m.wf
  | _ => True

instance (f : Option Frame) : Decidable (FrameWf f) := by
  unfold FrameWf
  match f with
  | some (.img m) => infer_instance
  | some (.corrupt _) => exact .isTrue trivial
  | none => exact .isTrue trivial

/-- `Image.open` and the grayscale conversion: raises on corrupt bytes,
otherwise yields the pixel array. -/
def decodeFrame : Frame → Except String Img
  | .corrupt _ => .error "cannot identify image file"
  | .img m => .ok m

/-- NumPy broadcast index for one dimension: an axis of extent 1 is
repeated, otherwise the index passes through. -/
def bIdx (dim k : Nat) : Nat := if dim = 1 then 0 else k

/-- Absolute grayscale difference of the two broadcast-indexed pixels,
`np.abs(arr1 - arr2)` at position `(i, j)` of the broadcast shape. -/
def pixDiff (m1 m2 : Img) (i j : Nat) : Nat :=
  Int.natAbs ((m1.pix (bIdx m1.h i) (bIdx m1.w j) : Int)
            - (m2.pix (bIdx m2.h i) (bIdx m2.w j) : Int))

/-- `np.sum(diff > threshold)`: the number of positions of the broadcast
shape whose absolute difference strictly exceeds the pixel threshold. -/
def changedCount (m1 m2 : Img) (t : ℚ) : Nat :=
  ((List.range (max m1.h m2.h)).map (fun i =>
    ((List.range (max m1.w m2.w)).filter
      (fun j => decide (t < (pixDiff m1 m2 i j : ℚ)))).length)).sum

/-- NumPy shape compatibility for two 2-D arrays: each axis must match
or have extent 1 on one side. -/
def broadcastable (m1 m2 : Img) : Bool :=
  (decide (m1.h = m2.h) || decide (m1.h = 1) || decide (m2.h = 1)) &&
  (decide (m1.w = m2.w) || decide (m1.w = 1) || decide (m2.w = 1))

/-- The arithmetic core of `compare_frames` on two decoded arrays:
`np.abs(arr1 - arr2)` raises a broadcast error on incompatible shapes;
otherwise the changed-pixel count is divided by `arr1.size` and scaled
to a percentage. -/
def compareArrays (m1 m2 : Img) (t : ℚ) : Except String ℚ :=
  if broadcastable m1 m2 then
    .ok (((changedCount m1 m2 t : ℚ) / ((m1.h * m1.w : Nat) : ℚ)) * 100)
  else
    .error "operands could not be broadcast together"

/-- `compare_frames(frame1_bytes, frame2_bytes, threshold)`: `None`
inputs yield `0.0` before the `try` block; any exception inside the
`try` block (decode failure, broadcast failure) is caught and converted
to `0.0`. -/
def compare_frames (f1 f2 : Option Frame) (t : ℚ) : ℚ :=
  match f1, f2 with
  | none, _ => 0
  | _, none => 0
  | some g1, some g2 =>
    match (decodeFrame g1).bind (fun m1 =>
            (decodeFrame g2).bind (fun m2 => compareArrays m1 m2 t)) with
    | .ok v => v
    | .error _ => 0

/-- `save_motion_snapshot(frame_bytes)`: the globals
`MOTION_SNAPSHOT_ENABLED` and `MOTION_SNAPSHOT_LIMIT` and the shared
`snapshot_history` are passed explicitly; `time.time()` is the `now`
argument.  Returns the timestamp (or `none`) and the new history. -/
def save_motion_snapshot (enabled : Bool) (limit : Nat)
    (hist : List (ℚ × Frame)) (now : ℚ) (frame : Option Frame) :
    Option ℚ × List (ℚ × Frame) :=
  match enabled, frame with
  | false, _ => (none, hist)
  | true, none => (none, hist)
  | true, some f =>
    let h1 := hist ++ [(now, f)]
    let h2 := if 0 < limit ∧ limit < h1.length
              then h1.drop (h1.length - limit) else h1
    (some now, h2)

/-- The three states of `MotionDetector`. -/
inductive DState where
  | idle
  | motion_detected
  | cooldown
deriving DecidableEq, Repr

/-- The fields of a `MotionDetector` instance (the lock is not part of
the sequential model). -/
structure MotionDetector where
  threshold : ℚ
  cooldown_seconds : ℚ
  state : DState
  motion_event_count : Nat
  last_motion_time : Option ℚ
  last_change_percentage : ℚ
  previous_frame : Option Frame
  baseline_frame : Option Frame
deriving DecidableEq, Repr

/-- `MotionDetector.__init__(threshold, cooldown_seconds)`: stores both
parameters unchanged and initialises the remaining fields. -/
def MotionDetector.init (threshold cooldown_seconds : ℚ) : MotionDetector :=
  { threshold := threshold
    cooldown_seconds := cooldown_seconds
    state := DState.idle
    motion_event_count := 0
    last_motion_time := none
    last_change_percentage := 0
    previous_frame := none
    baseline_frame := none }

/-- `MotionDetector._is_cooldown_expired()` at time `now`. -/
def is_cooldown_expired (d : MotionDetector) (now : ℚ) : Bool :=
  match d.last_motion_time with
  | none => true
  | some t => decide (d.cooldown_seconds ≤ now - t)

/-- The `STATE_IDLE` branch of `check_motion`: compare with the previous
frame (pixel threshold left at its default `5.0`), store the result and
the frame, and trigger when the change reaches the configured
percentage threshold. -/
def idleStep (d : MotionDetector) (now : ℚ) (f : Frame) :
    MotionDetector × Bool × ℚ :=
  let c := compare_frames d.previous_frame (some f) 5
  let d2 := { d with last_change_percentage := c, previous_frame := some f }
  if d.threshold ≤ c then
    ({ d2 with state := DState.motion_detected
               motion_event_count := d2.motion_event_count + 1
               last_motion_time := some now }, true, c)
  else
    (d2, false, c)

/-- The `STATE_MOTION_DETECTED` branch of `check_motion`: compare with
the baseline frame, store the result and the frame, and fall into
cooldown when the change drops below the configured threshold. -/
def motionStep (d : MotionDetector) (now : ℚ) (f : Frame) :
    MotionDetector × Bool × ℚ :=
  let c := compare_frames d.baseline_frame (some f) 5
  let d2 := { d with last_change_percentage := c, previous_frame := some f }
  if c < d.threshold then
    ({ d2 with state := DState.cooldown, last_motion_time := some now }, false, c)
  else
    ({ d2 with last_motion_time := some now }, true, c)

/-- `MotionDetector.check_motion(current_frame_bytes)` at time `now`:
returns the updated detector together with the Python return value
`(motion_detected, change_percentage)`. -/
def check_motion (d : MotionDetector) (now : ℚ) (frame : Option Frame) :
    MotionDetector × Bool × ℚ :=
  match frame with
  | none => (d, false, 0)
  | some f =>
    if d.previous_frame = none then
      ({ d with previous_frame := some f, baseline_frame := some f }, false, 0)
    else if d.state = DState.cooldown ∧ is_cooldown_expired d now = false then
      (d, false, d.last_change_percentage)
    else
      let d1 := if d.state = DState.cooldown
                then { d with state := DState.idle, baseline_frame := some f }
                else d
      if d1.state = DState.idle then idleStep d1 now f
      else if d1.state = DState.motion_detected then motionStep d1 now f
      else (d1, false, d1.last_change_percentage)

/-- `MotionDetector.is_motion_active()`. -/
def is_motion_active (d : MotionDetector) : Bool :=
  decide (d.state = DState.motion_detected)

/-- Detector states reachable from a freshly constructed instance by
calls to `check_motion` (the only method that mutates the fields). -/
inductive Reachable : MotionDetector → Prop where
  | base (th cd : ℚ) : Reachable (MotionDetector.init th cd)
  | step (d : MotionDetector) (now : ℚ) (f : Option Frame) :
      Reachable d → Reachable (check_motion d now f).1

/-- One cycle of the motion-detection part of `monitoring_loop` on a
non-`None` frame: call `check_motion` and, when it reports motion and
snapshots are enabled, call `save_motion_snapshot` on the same frame.
Returns the detector, the history, whether `save_motion_snapshot` was
invoked, and the change percentage. -/
def monitor_cycle (enabled : Bool) (limit : Nat) (d : MotionDetector)
    (hist : List (ℚ × Frame)) (now : ℚ) (f : Frame) :
    MotionDetector × List (ℚ × Frame) × Bool × ℚ :=
  let r := check_motion d now (some f)
  if r.2.1 = true ∧ enabled = true then
    (r.1, (save_motion_snapshot enabled limit hist now (some f)).2, true, r.2.2)
  else
    (r.1, hist, false, r.2.2)

/-- The motion-detection configuration check in `main` (lines 735-744):
an out-of-range threshold aborts, anything else constructs the detector;
`motion_cooldown` is passed through unexamined. -/
def main_motion_config (motion_threshold motion_cooldown : ℚ) :
    Except String MotionDetector :=
  if ¬ (0 ≤ motion_threshold ∧ motion_threshold ≤ 100) then
    .error "Motion threshold must be between 0 and 100"
  else
    .ok (MotionDetector.init motion_threshold motion_cooldown)

/-- Two decoded arrays have the same shape. -/
def sameShape (m1 m2 : Img) : Prop := m1.h = m2.h ∧ m1.w = m2.w

/-- The input situations in which the comparison result is bounded by
100: anything except two decodable images of distinct but
broadcast-compatible shapes. -/
def boundedCase : Option Frame → Option Frame → Prop
  | some (.img m1), some (.img m2) => sameShape m1 m2 ∨ broadcastable m1 m2 = false
  | _, _ => True

instance (f1 f2 : Option Frame) : Decidable (boundedCase f1 f2) := by
  unfold boundedCase
  match f1, f2 with
  | some (.img m1), some (.img m2) => unfold sameShape; infer_instance
  | some (.corrupt _), _ => exact .isTrue trivial
  | none, _ => exact .isTrue trivial
  | some (.img _), some (.corrupt _) => exact .isTrue trivial
  | some (.img _), none => exact .isTrue trivial

/-- The changed-pixel count never exceeds the size of the broadcast
shape. -/
lemma changedCount_le (m1 m2 : Img) (t : ℚ) :
    changedCount m1 m2 t ≤ (max m1.h m2.h) * (max m1.w m2.w) := by
  unfold changedCount
  have hb : ∀ x ∈ (List.range (max m1.h m2.h)).map (fun i =>
      ((List.range (max m1.w m2.w)).filter
        (fun j => decide (t < (pixDiff m1 m2 i j : ℚ)))).length),
      x ≤ max m1.w m2.w := by
    intro x hx
    simp only [List.mem_map] at hx
    obtain ⟨i, -, rfl⟩ := hx
    calc ((List.range (max m1.w m2.w)).filter
            (fun j => decide (t < (pixDiff m1 m2 i j : ℚ)))).length
        ≤ (List.range (max m1.w m2.w)).length := List.length_filter_le _ _
      _ = max m1.w m2.w := List.length_range _
  have h := List.sum_le_card_nsmul _ _ hb
  simpa [List.length_map, List.length_range, smul_eq_mul] using h

-- Concrete frames used by witnesses and counterexamples.

/-- A well-formed 1 by 1 all-black frame. -/
def fBlack : Frame := .img ⟨[[0]]⟩

/-- A well-formed 1 by 1 all-white frame. -/
def fWhite : Frame := .img ⟨[[255]]⟩

/-- A well-formed 2 by 1 all-white frame (distinct shape from `fBlack`
but broadcast-compatible with it). -/
def fTall : Frame := .img ⟨[[255], [255]]⟩

/-- C1: the claim that `compare_frames` always returns a value in
[0, 100] fails: for a 1 by 1 image against a 2 by 1 image the shapes
broadcast, the diff has 2 entries but `arr1.size` is 1, and the call
returns 200.0. -/
theorem c1_counterexample :
    FrameWf (some fBlack) ∧ FrameWf (some fTall) ∧
    compare_frames (some fBlack) (some fTall) 5 = 200 ∧
    ¬ compare_frames (some fBlack) (some fTall) 5 ≤ 100 := by
  have h : compare_frames (some fBlack) (some fTall) 5 = 200 := by
    norm_num [compare_frames, decodeFrame, Except.bind, compareArrays, broadcastable,
      changedCount, pixDiff, bIdx, Img.h, Img.w, Img.pix, fBlack, fTall, List.range_succ]
  exact ⟨by decide, by decide, h, by rw [h]; norm_num⟩

/-- C1 (amended): every call to `compare_frames` returns normally (the
`except` clause absorbs decode and broadcast errors) with a value that
is always ≥ 0 and, whenever the inputs are missing, undecodable, of
equal shapes, or of broadcast-incompatible shapes, also ≤ 100; only two
decodable images of distinct broadcast-compatible shapes can exceed
100. -/
theorem c1_bounds (f1 f2 : Option Frame) (t : ℚ)
    (h1 : FrameWf f1) (h2 : FrameWf f2) :
    0 ≤ compare_frames f1 f2 t ∧
    (boundedCase f1 f2 → compare_frames f1 f2 t ≤ 100) := by
  match f1, f2 with
  | none, f2 =>
    refine ⟨?_, fun _ => ?_⟩ <;> norm_num [compare_frames]
  | some g1, none =>
    refine ⟨?_, fun _ => ?_⟩ <;> norm_num [compare_frames]
  | some (.corrupt n), some g2 =>
    cases g2 <;>
      (refine ⟨?_, fun _ => ?_⟩ <;>
        norm_num [compare_frames, decodeFrame, Except.bind])
  | some (.img m1), some (.corrupt n) =>
    refine ⟨?_, fun _ => ?_⟩ <;>
      norm_num [compare_frames, decodeFrame, Except.bind]
  | some (.img m1), some (.img m2) =>
    have hwf1 : m1.wf := h1
    obtain ⟨hh1, hw1, -⟩ := hwf1
    have hcf : compare_frames (some (.img m1)) (some (.img m2)) t =
        if broadcastable m1 m2
        then ((changedCount m1 m2 t : ℚ) / ((m1.h * m1.w : Nat) : ℚ)) * 100
        else 0 := by
      by_cases hb : broadcastable m1 m2 <;>
        simp [compare_frames, decodeFrame, Except.bind, compareArrays, hb]
    by_cases hb : broadcastable m1 m2
    · rw [hcf, if_pos hb]
      have htot : (0 : ℚ) < ((m1.h * m1.w : Nat) : ℚ) := by
        have : 0 < m1.h * m1.w := Nat.mul_pos hh1 hw1
        exact_mod_cast this
      constructor
      · apply mul_nonneg
        · exact div_nonneg (by positivity) (le_of_lt htot)
        · norm_num
      · intro hcase
        have hs : sameShape m1 m2 := by
          rcases hcase with hs | hfalse
          · exact hs
          · rw [hb] at hfalse; exact absurd hfalse (by simp)
        have hle : changedCount m1 m2 t ≤ m1.h * m1.w := by
          have := changedCount_le m1 m2 t
          rwa [← hs.1, ← hs.2, Nat.max_self, Nat.max_self] at this
        have hdiv : (changedCount m1 m2 t : ℚ) / ((m1.h * m1.w : Nat) : ℚ) ≤ 1 := by
          rw [div_le_one htot]
          exact_mod_cast hle
        calc (changedCount m1 m2 t : ℚ) / ((m1.h * m1.w : Nat) : ℚ) * 100
            ≤ 1 * 100 := by
              apply mul_le_mul_of_nonneg_right hdiv; norm_num
          _ = 100 := by norm_num
    · rw [hcf, if_neg hb]
      exact ⟨le_refl 0, fun _ => by norm_num⟩

/-- C1 witness: the bounds theorem applied to two concrete well-formed
frames. -/
theorem c1_bounds_witness :
    FrameWf (some fBlack) ∧ FrameWf (some fWhite) ∧
    (0 ≤ compare_frames (some fBlack) (some fWhite) 5 ∧
     (boundedCase (some fBlack) (some fWhite) →
        compare_frames (some fBlack) (some fWhite) 5 ≤ 100)) :=
  ⟨by decide, by decide, c1_bounds (some fBlack) (some fWhite) 5 (by decide) (by decide)⟩

/-- C7: `compare_frames` returns exactly 0.0, with no exception reaching
the caller, when either input is `None` or either input fails to
decode. -/
theorem c7_degenerate_zero (f : Option Frame) (t : ℚ) (n : Nat) :
    compare_frames none f t = 0 ∧
    compare_frames f none t = 0 ∧
    compare_frames (some (Frame.corrupt n)) f t = 0 ∧
    compare_frames f (some (Frame.corrupt n)) t = 0 := by
  refine ⟨by simp [compare_frames], ?_, ?_, ?_⟩ <;>
    (cases f with
     | none => simp [compare_frames]
     | some g => cases g <;> simp [compare_frames, decodeFrame, Except.bind])

/-- Concrete evaluation: a black and a white 1 by 1 frame differ in
every pixel. -/
lemma cmp_black_white : compare_frames (some fBlack) (some fWhite) 5 = 100 := by
  norm_num [compare_frames, decodeFrame, Except.bind, compareArrays, broadcastable,
    changedCount, pixDiff, bIdx, Img.h, Img.w, Img.pix, fBlack, fWhite, List.range_succ]

/-- Concrete evaluation: white against black also differs in every
pixel. -/
lemma cmp_white_black : compare_frames (some fWhite) (some fBlack) 5 = 100 := by
  norm_num [compare_frames, decodeFrame, Except.bind, compareArrays, broadcastable,
    changedCount, pixDiff, bIdx, Img.h, Img.w, Img.pix, fBlack, fWhite, List.range_succ]

/-- Concrete evaluation: two identical white frames do not differ. -/
lemma cmp_white_white : compare_frames (some fWhite) (some fWhite) 5 = 0 := by
  norm_num [compare_frames, decodeFrame, Except.bind, compareArrays, broadcastable,
    changedCount, pixDiff, bIdx, Img.h, Img.w, Img.pix, fWhite, List.range_succ]

/-- Concrete evaluation: two identical black frames do not differ. -/
lemma cmp_black_black : compare_frames (some fBlack) (some fBlack) 5 = 0 := by
  norm_num [compare_frames, decodeFrame, Except.bind, compareArrays, broadcastable,
    changedCount, pixDiff, bIdx, Img.h, Img.w, Img.pix, fBlack, List.range_succ]

/-- With a previous frame in place and state `Idle`, `check_motion`
reduces to the idle branch. -/
lemma check_motion_idle (d : MotionDetector) (now : ℚ) (f p : Frame)
    (hprev : d.previous_frame = some p) (hstate : d.state = DState.idle) :
    check_motion d now (some f) = idleStep d now f := by
  simp [check_motion, hprev, hstate]

/-- C2: with a non-`None` frame, a previous frame in place, and state
`Idle`, `check_motion` compares the previous frame with the new one,
stores the new frame and the result, and on a change reaching the
configured threshold transitions to `MotionDetected`, increments the
event counter by one, stamps the motion time, and returns the pair the
claim describes. -/
theorem c2_idle_transition (d : MotionDetector) (now : ℚ) (f p : Frame)
    (hprev : d.previous_frame = some p) (hstate : d.state = DState.idle) :
    (check_motion d now (some f)).2.2 = compare_frames (some p) (some f) 5 ∧
    (check_motion d now (some f)).1.previous_frame = some f ∧
    (check_motion d now (some f)).1.last_change_percentage
      = compare_frames (some p) (some f) 5 ∧
    (d.threshold ≤ compare_frames (some p) (some f) 5 →
      (check_motion d now (some f)).2.1 = true ∧
      (check_motion d now (some f)).1.state = DState.motion_detected ∧
      (check_motion d now (some f)).1.motion_event_count
        = d.motion_event_count + 1 ∧
      (check_motion d now (some f)).1.last_motion_time = some now) ∧
    (¬ d.threshold ≤ compare_frames (some p) (some f) 5 →
      (check_motion d now (some f)).2.1 = false ∧
      (check_motion d now (some f)).1.state = DState.idle ∧
      (check_motion d now (some f)).1.motion_event_count = d.motion_event_count ∧
      (check_motion d now (some f)).1.last_motion_time = d.last_motion_time) := by
  rw [check_motion_idle d now f p hprev hstate]
  unfold idleStep
  rw [hprev]
  by_cases hc : d.threshold ≤ compare_frames (some p) (some f) 5
  · simp [hc, hstate]
  · simp [hc, hstate]

/-- A primed idle detector, used as concrete witness input. -/
def dIdleW : MotionDetector :=
  { threshold := 5
    cooldown_seconds := 5
    state := DState.idle
    motion_event_count := 0
    last_motion_time := none
    last_change_percentage := 0
    previous_frame := some fBlack
    baseline_frame := some fBlack }

/-- C2 witness: a primed idle detector fed a fully changed frame. -/
theorem c2_idle_transition_witness :
    dIdleW.previous_frame = some fBlack ∧
    dIdleW.state = DState.idle ∧
    ((check_motion dIdleW 7 (some fWhite)).2.2
      = compare_frames (some fBlack) (some fWhite) 5 ∧
     (check_motion dIdleW 7 (some fWhite)).1.previous_frame = some fWhite) :=
  ⟨rfl, rfl,
    (c2_idle_transition dIdleW 7 fWhite fBlack rfl rfl).1,
    (c2_idle_transition dIdleW 7 fWhite fBlack rfl rfl).2.1⟩

/-- With a previous frame in place and state `MotionDetected`,
`check_motion` reduces to the motion branch. -/
lemma check_motion_motion (d : MotionDetector) (now : ℚ) (f p : Frame)
    (hprev : d.previous_frame = some p)
    (hstate : d.state = DState.motion_detected) :
    check_motion d now (some f) = motionStep d now f := by
  simp [check_motion, hprev, hstate]

/-- C3: with a non-`None` frame and state `MotionDetected`,
`check_motion` compares the baseline frame (not the previous one) with
the new frame, stores the new frame and the result, leaves the event
counter and the baseline untouched, and either falls into `Cooldown`
(change below threshold, returning `(false, result)`) or stays in
`MotionDetected` refreshing the motion time (returning
`(true, result)`). -/
theorem c3_motion_branch (d : MotionDetector) (now : ℚ) (f p : Frame)
    (hprev : d.previous_frame = some p)
    (hstate : d.state = DState.motion_detected) :
    (check_motion d now (some f)).2.2 = compare_frames d.baseline_frame (some f) 5 ∧
    (check_motion d now (some f)).1.previous_frame = some f ∧
    (check_motion d now (some f)).1.last_change_percentage
      = compare_frames d.baseline_frame (some f) 5 ∧
    (check_motion d now (some f)).1.motion_event_count = d.motion_event_count ∧
    (check_motion d now (some f)).1.baseline_frame = d.baseline_frame ∧
    (check_motion d now (some f)).1.last_motion_time = some now ∧
    (compare_frames d.baseline_frame (some f) 5 < d.threshold →
      (check_motion d now (some f)).2.1 = false ∧
      (check_motion d now (some f)).1.state = DState.cooldown) ∧
    (¬ compare_frames d.baseline_frame (some f) 5 < d.threshold →
      (check_motion d now (some f)).2.1 = true ∧
      (check_motion d now (some f)).1.state = DState.motion_detected) := by
  rw [check_motion_motion d now f p hprev hstate]
  unfold motionStep
  by_cases hc : compare_frames d.baseline_frame (some f) 5 < d.threshold
  · simp [hc, hstate]
  · simp [hc, hstate]

/-- A detector currently in `MotionDetected`, used as concrete witness
input. -/
def dMotionW : MotionDetector :=
  { threshold := 5
    cooldown_seconds := 5
    state := DState.motion_detected
    motion_event_count := 1
    last_motion_time := some 1
    last_change_percentage := 100
    previous_frame := some fWhite
    baseline_frame := some fBlack }

/-- C3 witness: a detector in `MotionDetected` that sees a frame still
fully different from the baseline. -/
theorem c3_motion_branch_witness :
    dMotionW.previous_frame = some fWhite ∧
    dMotionW.state = DState.motion_detected ∧
    ((check_motion dMotionW 2 (some fWhite)).2.2
      = compare_frames dMotionW.baseline_frame (some fWhite) 5 ∧
     (check_motion dMotionW 2 (some fWhite)).1.baseline_frame
      = dMotionW.baseline_frame) :=
  ⟨rfl, rfl,
    (c3_motion_branch dMotionW 2 fWhite fWhite rfl rfl).1,
    (c3_motion_branch dMotionW 2 fWhite fWhite rfl rfl).2.2.2.2.1⟩

/-- C4: with a non-`None` frame, a previous frame in place, state
`Cooldown`, and a recorded motion time: while the elapsed time is below
`cooldown_seconds` the call returns `(false, last_change_percentage)`
and changes nothing at all; once the elapsed time reaches
`cooldown_seconds` the call re-baselines to the current frame and
evaluates it under the `Idle` rules, so a motion-triggering frame
returns `(true, result)` and increments the event counter. -/
theorem c4_cooldown (d : MotionDetector) (now t0 : ℚ) (f p : Frame)
    (hprev : d.previous_frame = some p)
    (hstate : d.state = DState.cooldown)
    (hlmt : d.last_motion_time = some t0) :
    (now - t0 < d.cooldown_seconds →
      check_motion d now (some f) = (d, false, d.last_change_percentage)) ∧
    (d.cooldown_seconds ≤ now - t0 →
      (check_motion d now (some f)).1.baseline_frame = some f ∧
      (check_motion d now (some f)).1.previous_frame = some f ∧
      (check_motion d now (some f)).2.2 = compare_frames (some p) (some f) 5 ∧
      (d.threshold ≤ compare_frames (some p) (some f) 5 →
        (check_motion d now (some f)).2.1 = true ∧
        (check_motion d now (some f)).1.state = DState.motion_detected ∧
        (check_motion d now (some f)).1.motion_event_count
          = d.motion_event_count + 1) ∧
      (¬ d.threshold ≤ compare_frames (some p) (some f) 5 →
        (check_motion d now (some f)).2.1 = false ∧
        (check_motion d now (some f)).1.state = DState.idle ∧
        (check_motion d now (some f)).1.motion_event_count
          = d.motion_event_count)) := by
  constructor
  · intro helapsed
    have hexp : is_cooldown_expired d now = false := by
      simp [is_cooldown_expired, hlmt]
      linarith
    simp [check_motion, hprev, hstate, hexp]
  · intro helapsed
    have hexp : is_cooldown_expired d now = true := by
      simp [is_cooldown_expired, hlmt]
      linarith
    have hred : check_motion d now (some f) =
        idleStep { d with state := DState.idle, baseline_frame := some f } now f := by
      simp [check_motion, hprev, hstate, hexp]
    rw [hred]
    unfold idleStep
    simp only [hprev]
    by_cases hc : d.threshold ≤ compare_frames (some p) (some f) 5
    · simp [hc]
    · simp [hc]

/-- A detector sitting in `Cooldown`, used as concrete witness input. -/
def dCooldownW : MotionDetector :=
  { threshold := 5
    cooldown_seconds := 5
    state := DState.cooldown
    motion_event_count := 1
    last_motion_time := some 10
    last_change_percentage := 2
    previous_frame := some fBlack
    baseline_frame := some fBlack }

/-- C4 witness: the cooldown theorem applied to a concrete detector in
cooldown; at time 11 the cooldown (5 seconds from time 10) is still
active. -/
theorem c4_cooldown_witness :
    dCooldownW.previous_frame = some fBlack ∧
    dCooldownW.state = DState.cooldown ∧
    dCooldownW.last_motion_time = some 10 ∧
    ((11 : ℚ) - 10 < dCooldownW.cooldown_seconds) ∧
    check_motion dCooldownW 11 (some fWhite)
      = (dCooldownW, false, dCooldownW.last_change_percentage) :=
  ⟨rfl, rfl, rfl, by norm_num [dCooldownW],
    (c4_cooldown dCooldownW 11 10 fWhite fBlack rfl rfl rfl).1
      (by norm_num [dCooldownW])⟩

/-- The detector after priming a fresh instance with `fBlack`. -/
def dPrimed : MotionDetector :=
  { MotionDetector.init 5 5 with
      previous_frame := some fBlack
      baseline_frame := some fBlack }

/-- C5: the claimed invariant fails on the code: after priming with
frame A, a triggering frame B performs the Idle to MotionDetected
transition (the most recent Idle to non-Idle transition, with B the
frame supplied at it), yet `baseline_frame` remains A ≠ B. -/
theorem c5_counterexample :
    (check_motion (MotionDetector.init 5 5) 0 (some fBlack)).1 = dPrimed ∧
    dPrimed.state = DState.idle ∧
    (check_motion dPrimed 1 (some fWhite)).1.state = DState.motion_detected ∧
    (check_motion dPrimed 1 (some fWhite)).1.baseline_frame = some fBlack ∧
    fBlack ≠ fWhite := by
  have hred : check_motion dPrimed 1 (some fWhite) = idleStep dPrimed 1 fWhite :=
    check_motion_idle dPrimed 1 fWhite fBlack rfl rfl
  refine ⟨?_, rfl, ?_, ?_, by decide⟩
  · simp [check_motion, MotionDetector.init, dPrimed]
  · rw [hred]
    norm_num [idleStep, dPrimed, MotionDetector.init, cmp_black_white]
  · rw [hred]
    norm_num [idleStep, dPrimed, MotionDetector.init, cmp_black_white]

/-- A `None` frame is rejected before the lock is taken. -/
lemma check_motion_none (d : MotionDetector) (now : ℚ) :
    check_motion d now none = (d, false, 0) := rfl

/-- The priming branch: the first frame is stored as both previous and
baseline frame. -/
lemma check_motion_prime (d : MotionDetector) (now : ℚ) (f : Frame)
    (hp : d.previous_frame = none) :
    check_motion d now (some f)
      = ({ d with previous_frame := some f, baseline_frame := some f },
         false, 0) := by
  simp [check_motion, hp]

/-- The active-cooldown short-circuit. -/
lemma check_motion_cooldown_active (d : MotionDetector) (now : ℚ) (f p : Frame)
    (hprev : d.previous_frame = some p)
    (hstate : d.state = DState.cooldown)
    (hexp : is_cooldown_expired d now = false) :
    check_motion d now (some f) = (d, false, d.last_change_percentage) := by
  simp [check_motion, hprev, hstate, hexp]

/-- The expired-cooldown fall-through: re-baseline and run the idle
branch in the same call. -/
lemma check_motion_cooldown_expired (d : MotionDetector) (now : ℚ) (f p : Frame)
    (hprev : d.previous_frame = some p)
    (hstate : d.state = DState.cooldown)
    (hexp : is_cooldown_expired d now = true) :
    check_motion d now (some f)
      = idleStep { d with state := DState.idle, baseline_frame := some f } now f := by
  simp [check_motion, hprev, hstate, hexp]

/-- The idle branch leaves the configuration, the counter-irrelevant
fields it does not mention, and in particular the baseline unchanged. -/
lemma idleStep_fields (d : MotionDetector) (now : ℚ) (f : Frame) :
    (idleStep d now f).1.threshold = d.threshold ∧
    (idleStep d now f).1.cooldown_seconds = d.cooldown_seconds ∧
    (idleStep d now f).1.baseline_frame = d.baseline_frame ∧
    (idleStep d now f).1.previous_frame = some f := by
  by_cases h : d.threshold ≤ compare_frames d.previous_frame (some f) 5 <;>
    simp [idleStep, h]

/-- The motion branch leaves the configuration, the event counter and
the baseline unchanged. -/
lemma motionStep_fields (d : MotionDetector) (now : ℚ) (f : Frame) :
    (motionStep d now f).1.threshold = d.threshold ∧
    (motionStep d now f).1.cooldown_seconds = d.cooldown_seconds ∧
    (motionStep d now f).1.baseline_frame = d.baseline_frame ∧
    (motionStep d now f).1.motion_event_count = d.motion_event_count ∧
    (motionStep d now f).1.previous_frame = some f := by
  by_cases h : compare_frames d.baseline_frame (some f) 5 < d.threshold <;>
    simp [motionStep, h]

/-- C5 (amended): `check_motion` updates `baseline_frame` only when it
primes the detector or when an expired cooldown is left for `Idle`, in
both cases to the frame supplied at that call; it never updates the
baseline while the state is `MotionDetected`, and an Idle to
MotionDetected transition keeps the baseline of the rest scene. -/
theorem c5_baseline_update (d : MotionDetector) (now : ℚ) (f : Frame) :
    ((check_motion d now (some f)).1.baseline_frame ≠ d.baseline_frame →
      (check_motion d now (some f)).1.baseline_frame = some f ∧
      (d.previous_frame = none ∨
        (d.state = DState.cooldown ∧ is_cooldown_expired d now = true))) ∧
    (d.state = DState.motion_detected → d.previous_frame ≠ none →
      (check_motion d now (some f)).1.baseline_frame = d.baseline_frame) ∧
    (d.state = DState.idle → d.previous_frame ≠ none →
      (check_motion d now (some f)).1.baseline_frame = d.baseline_frame) := by
  rcases hp : d.previous_frame with - | p
  · rw [check_motion_prime d now f hp]
    exact ⟨fun _ => ⟨rfl, Or.inl rfl⟩,
           fun _ h => absurd rfl h,
           fun _ h => absurd rfl h⟩
  · cases hs : d.state with
    | idle =>
      rw [check_motion_idle d now f p hp hs]
      have hb := (idleStep_fields d now f).2.2.1
      exact ⟨fun h => absurd hb h,
             fun hmd _ => absurd hmd (by decide),
             fun _ _ => hb⟩
    | motion_detected =>
      rw [check_motion_motion d now f p hp hs]
      have hb := (motionStep_fields d now f).2.2.1
      exact ⟨fun h => absurd hb h,
             fun _ _ => hb,
             fun hid _ => absurd hid (by decide)⟩
    | cooldown =>
      by_cases hexp : is_cooldown_expired d now = true
      · rw [check_motion_cooldown_expired d now f p hp hs hexp]
        have hb := (idleStep_fields
          { d with state := DState.idle, baseline_frame := some f } now f).2.2.1
        exact ⟨fun _ => ⟨by rw [hb], Or.inr ⟨rfl, hexp⟩⟩,
               fun hmd _ => absurd hmd (by decide),
               fun hid _ => absurd hid (by decide)⟩
      · rw [check_motion_cooldown_active d now f p hp hs
          (by simpa using hexp)]
        exact ⟨fun h => absurd rfl h,
               fun hmd _ => absurd hmd (by decide),
               fun hid _ => absurd hid (by decide)⟩

/-- C5 witness: the baseline-update characterization applied to a
detector in `MotionDetected` receiving a further frame. -/
theorem c5_baseline_update_witness :
    ((check_motion dMotionW 3 (some fBlack)).1.baseline_frame
        ≠ dMotionW.baseline_frame →
      (check_motion dMotionW 3 (some fBlack)).1.baseline_frame = some fBlack ∧
      (dMotionW.previous_frame = none ∨
        (dMotionW.state = DState.cooldown ∧
         is_cooldown_expired dMotionW 3 = true))) ∧
    (dMotionW.state = DState.motion_detected → dMotionW.previous_frame ≠ none →
      (check_motion dMotionW 3 (some fBlack)).1.baseline_frame
        = dMotionW.baseline_frame) ∧
    (dMotionW.state = DState.idle → dMotionW.previous_frame ≠ none →
      (check_motion dMotionW 3 (some fBlack)).1.baseline_frame
        = dMotionW.baseline_frame) :=
  c5_baseline_update dMotionW 3 fBlack

/-- C6: the claim that out-of-range configuration is rejected at
construction time fails on the code: `MotionDetector.__init__` performs
no validation, so a threshold of 500 and a negative cooldown are stored
unchanged, and even the configuration path in `main` accepts a negative
cooldown. -/
theorem c6_counterexample :
    (MotionDetector.init 500 (-1)).threshold = 500 ∧
    (MotionDetector.init 500 (-1)).cooldown_seconds = -1 ∧
    ¬ (500 : ℚ) ≤ 100 ∧
    ¬ (0 : ℚ) ≤ (-1 : ℚ) ∧
    main_motion_config 5 (-3) = .ok (MotionDetector.init 5 (-3)) ∧
    ¬ (0 : ℚ) ≤ (-3 : ℚ) := by
  refine ⟨rfl, rfl, by norm_num, by norm_num, ?_, by norm_num⟩
  norm_num [main_motion_config]

/-- C6 (amended): construction itself never validates: both parameters
are stored unchanged for any values; the CLI configuration path rejects
exactly the thresholds outside [0, 100] and never examines the
cooldown; and `check_motion` leaves both parameters untouched, so they
are immutable for the lifetime of the instance. -/
theorem c6_config (th cd : ℚ) (d : MotionDetector) (now : ℚ) (f : Option Frame) :
    (MotionDetector.init th cd).threshold = th ∧
    (MotionDetector.init th cd).cooldown_seconds = cd ∧
    (main_motion_config th cd = .ok (MotionDetector.init th cd)
      ↔ (0 ≤ th ∧ th ≤ 100)) ∧
    (check_motion d now f).1.threshold = d.threshold ∧
    (check_motion d now f).1.cooldown_seconds = d.cooldown_seconds := by
  refine ⟨rfl, rfl, ?_, ?_, ?_⟩
  · by_cases h : 0 ≤ th ∧ th ≤ 100
    · simp [main_motion_config, h]
    · simp [main_motion_config, h]
  all_goals
    rcases f with - | f
    · rw [check_motion_none]
    · rcases hp : d.previous_frame with - | p
      · rw [check_motion_prime d now f hp]
      · cases hs : d.state with
        | idle =>
          rw [check_motion_idle d now f p hp hs]
          first
          | exact (idleStep_fields d now f).1
          | exact (idleStep_fields d now f).2.1
        | motion_detected =>
          rw [check_motion_motion d now f p hp hs]
          first
          | exact (motionStep_fields d now f).1
          | exact (motionStep_fields d now f).2.1
        | cooldown =>
          by_cases hexp : is_cooldown_expired d now = true
          · rw [check_motion_cooldown_expired d now f p hp hs hexp]
            first
            | exact (idleStep_fields _ now f).1
            | exact (idleStep_fields _ now f).2.1
          · rw [check_motion_cooldown_active d now f p hp hs
              (by simpa using hexp)]

/-- Dropping fewer elements than the length preserves the last
element. -/
lemma getLast?_drop_of_lt {α : Type} (l : List α) (k : Nat) (h : k < l.length) :
    (l.drop k).getLast? = l.getLast? := by
  induction l generalizing k with
  | nil => simp at h
  | cons a tl ih =>
    cases k with
    | zero => simp
    | succ k =>
      have hk : k < tl.length := by simpa using h
      have htl : ∃ b tl2, tl = b :: tl2 := by
        cases tl with
        | nil => simp at hk
        | cons b tl2 => exact ⟨b, tl2, rfl⟩
      obtain ⟨b, tl2, rfl⟩ := htl
      rw [List.drop_succ_cons, ih k hk, List.getLast?_cons_cons]

/-- After a successful save the newest entry is the last one, whether
or not the history was trimmed. -/
lemma save_hist_getLast (limit : Nat) (hist : List (ℚ × Frame))
    (now : ℚ) (f : Frame) :
    ((save_motion_snapshot true limit hist now (some f)).2).getLast?
      = some (now, f) := by
  show (if 0 < limit ∧ limit < (hist ++ [(now, f)]).length
        then (hist ++ [(now, f)]).drop ((hist ++ [(now, f)]).length - limit)
        else hist ++ [(now, f)]).getLast? = some (now, f)
  by_cases hc : 0 < limit ∧ limit < (hist ++ [(now, f)]).length
  · rw [if_pos hc, getLast?_drop_of_lt _ _ (by omega)]
    exact List.getLast?_concat _
  · rw [if_neg hc]
    exact List.getLast?_concat _

/-- The detector during sustained motion after priming with `fBlack`
and triggering with `fWhite`, with motion time `t`. -/
def dMotionAfter (t : ℚ) : MotionDetector :=
  { dPrimed with
      state := DState.motion_detected
      motion_event_count := 1
      last_motion_time := some t
      last_change_percentage := 100
      previous_frame := some fWhite }

/-- C8: the rising-edge-only claim fails on the code: after priming
with a black frame, two consecutive white frames both report motion
active and `save_motion_snapshot` is invoked on both cycles, the second
of which is not a rising edge. -/
theorem c8_counterexample :
    (monitor_cycle true 0 (MotionDetector.init 5 5) [] 0 fBlack).2.2.1 = false ∧
    (monitor_cycle true 0 dPrimed [] 1 fWhite).2.2.1 = true ∧
    (check_motion dPrimed 1 (some fWhite)).2.1 = true ∧
    (monitor_cycle true 0 (check_motion dPrimed 1 (some fWhite)).1
        [(1, fWhite)] 2 fWhite).2.2.1 = true ∧
    (check_motion (check_motion dPrimed 1 (some fWhite)).1 2
        (some fWhite)).2.1 = true := by
  have h1 : check_motion (MotionDetector.init 5 5) 0 (some fBlack)
      = (dPrimed, false, 0) := by
    simp [check_motion, MotionDetector.init, dPrimed]
  have h2 : check_motion dPrimed 1 (some fWhite) = (dMotionAfter 1, true, 100) := by
    rw [check_motion_idle dPrimed 1 fWhite fBlack rfl rfl]
    norm_num [idleStep, dPrimed, dMotionAfter, MotionDetector.init, cmp_black_white]
  have h3 : check_motion (dMotionAfter 1) 2 (some fWhite)
      = (dMotionAfter 2, true, 100) := by
    rw [check_motion_motion _ 2 fWhite fWhite rfl rfl]
    norm_num [motionStep, dPrimed, dMotionAfter, MotionDetector.init, cmp_black_white]
  refine ⟨?_, ?_, ?_, ?_, ?_⟩
  · simp [monitor_cycle, h1]
  · simp [monitor_cycle, h2]
  · rw [h2]
  · rw [h2]
    simp [monitor_cycle, h3]
  · rw [h2]
    simp [h3]

/-- C8 (amended): in each monitoring cycle `save_motion_snapshot` is
invoked exactly when `check_motion` reports motion active, including
every cycle of sustained motion, not only rising edges; when it is not
invoked the history is untouched, and when it is the current frame
becomes the newest entry. -/
theorem c8_snapshot_on_active (limit : Nat) (d : MotionDetector)
    (hist : List (ℚ × Frame)) (now : ℚ) (f : Frame) :
    (monitor_cycle true limit d hist now f).2.2.1
      = (check_motion d now (some f)).2.1 ∧
    ((check_motion d now (some f)).2.1 = false →
      (monitor_cycle true limit d hist now f).2.1 = hist) ∧
    ((check_motion d now (some f)).2.1 = true →
      (monitor_cycle true limit d hist now f).2.1.getLast? = some (now, f)) := by
  by_cases hmd : (check_motion d now (some f)).2.1 = true
  · refine ⟨?_, ?_, ?_⟩
    · simp [monitor_cycle, hmd]
    · intro hfalse
      rw [hmd] at hfalse
      cases hfalse
    · intro _
      simp only [monitor_cycle, hmd, and_self, if_pos]
      simpa using save_hist_getLast limit hist now f
  · have hmd' : (check_motion d now (some f)).2.1 = false :=
      Bool.not_eq_true _ ▸ (by simpa using hmd)
    refine ⟨?_, ?_, ?_⟩
    · simp [monitor_cycle, hmd', hmd]
    · intro _
      simp [monitor_cycle, hmd]
    · intro htrue
      rw [htrue] at hmd
      cases hmd rfl

/-- C8 witness: the per-cycle snapshot characterization at a concrete
detector and frame. -/
theorem c8_snapshot_on_active_witness :
    (monitor_cycle true 3 dMotionW [] 9 fWhite).2.2.1
      = (check_motion dMotionW 9 (some fWhite)).2.1 ∧
    ((check_motion dMotionW 9 (some fWhite)).2.1 = false →
      (monitor_cycle true 3 dMotionW [] 9 fWhite).2.1 = []) ∧
    ((check_motion dMotionW 9 (some fWhite)).2.1 = true →
      (monitor_cycle true 3 dMotionW [] 9 fWhite).2.1.getLast?
        = some (9, fWhite)) :=
  c8_snapshot_on_active 3 dMotionW [] 9 fWhite

/-- C9: with a positive limit, saving a snapshot appends the new entry
and keeps exactly the newest `limit` entries in insertion order: the
result is a suffix of the appended history, its length is at most the
limit, and the new entry is last; everything evicted is the oldest
prefix. -/
theorem c9_history_bound (limit : Nat) (hist : List (ℚ × Frame))
    (now : ℚ) (f : Frame) (hpos : 0 < limit) :
    (save_motion_snapshot true limit hist now (some f)).2
      = (hist ++ [(now, f)]).drop ((hist.length + 1) - limit) ∧
    (save_motion_snapshot true limit hist now (some f)).2.length ≤ limit ∧
    (save_motion_snapshot true limit hist now (some f)).2.getLast?
      = some (now, f) := by
  have hsave : (save_motion_snapshot true limit hist now (some f)).2
      = (if 0 < limit ∧ limit < (hist ++ [(now, f)]).length
         then (hist ++ [(now, f)]).drop ((hist ++ [(now, f)]).length - limit)
         else hist ++ [(now, f)]) := rfl
  have hlen : (hist ++ [(now, f)]).length = hist.length + 1 := by simp
  refine ⟨?_, ?_, save_hist_getLast limit hist now f⟩
  · rw [hsave]
    by_cases hc : limit < (hist ++ [(now, f)]).length
    · rw [if_pos ⟨hpos, hc⟩, hlen]
    · rw [if_neg (by tauto)]
      have hzero : hist.length + 1 - limit = 0 := by omega
      rw [hzero, List.drop_zero]
  · rw [hsave]
    by_cases hc : limit < (hist ++ [(now, f)]).length
    · rw [if_pos ⟨hpos, hc⟩, List.length_drop]
      omega
    · rw [if_neg (by tauto)]
      rw [hlen] at hc ⊢
      omega

/-- C9 witness: the bound theorem at limit 2 on a history already at
the limit. -/
theorem c9_history_bound_witness :
    (0 < 2) ∧
    (save_motion_snapshot true 2 [(0, fBlack), (1, fBlack)] 2 (some fWhite)).2
      = ([(0, fBlack), (1, fBlack)] ++ [((2 : ℚ), fWhite)]).drop
          (([(0, fBlack), (1, fBlack)] : List (ℚ × Frame)).length + 1 - 2) ∧
    (save_motion_snapshot true 2 [(0, fBlack), (1, fBlack)] 2 (some fWhite)).2.length
      ≤ 2 ∧
    (save_motion_snapshot true 2 [(0, fBlack), (1, fBlack)] 2 (some fWhite)).2.getLast?
      = some (2, fWhite) :=
  ⟨by norm_num, c9_history_bound 2 [(0, fBlack), (1, fBlack)] 2 fWhite (by norm_num)⟩

/-- If a call leaves `previous_frame` unset, it changed nothing: every
branch either stores the frame or returns the detector untouched. -/
lemma check_motion_prev_none_eq (d : MotionDetector) (now : ℚ) (f : Option Frame) :
    (check_motion d now f).1.previous_frame = none → (check_motion d now f).1 = d := by
  rcases f with - | f
  · rw [check_motion_none]
    intro _
    rfl
  · rcases hp : d.previous_frame with - | p
    · rw [check_motion_prime d now f hp]
      intro h
      simp at h
    · cases hs : d.state with
      | idle =>
        rw [check_motion_idle d now f p hp hs]
        intro h
        rw [(idleStep_fields d now f).2.2.2] at h
        simp at h
      | motion_detected =>
        rw [check_motion_motion d now f p hp hs]
        intro h
        rw [(motionStep_fields d now f).2.2.2.2] at h
        simp at h
      | cooldown =>
        by_cases hexp : is_cooldown_expired d now = true
        · rw [check_motion_cooldown_expired d now f p hp hs hexp]
          intro h
          rw [(idleStep_fields _ now f).2.2.2] at h
          simp at h
        · rw [check_motion_cooldown_active d now f p hp hs (by simpa using hexp)]
          intro _
          rfl

/-- Reachability invariant: a detector that has not yet stored a
previous frame is still in the initial `Idle` state. -/
lemma reachable_prev_none_idle (d : MotionDetector) (h : Reachable d) :
    d.previous_frame = none → d.state = DState.idle := by
  induction h with
  | base th cd => intro _; rfl
  | step d now f hre ih =>
    intro hp
    have heq := check_motion_prev_none_eq d now f hp
    rw [heq] at hp ⊢
    exact ih hp

/-- C10 (amended): on every reachable state, a call with a non-`None`
frame returns `true` exactly when the post-call state is
`MotionDetected`, and `is_motion_active` on the post-call state agrees
with the returned boolean; only a `None` frame (which the monitoring
loop filters out) can make the returned `false` disagree with a
`MotionDetected` state. -/
theorem c10_bool_matches_state (d : MotionDetector) (hreach : Reachable d)
    (now : ℚ) (f : Frame) :
    ((check_motion d now (some f)).2.1 = true ↔
      (check_motion d now (some f)).1.state = DState.motion_detected) ∧
    is_motion_active (check_motion d now (some f)).1
      = (check_motion d now (some f)).2.1 := by
  have hmain : (check_motion d now (some f)).2.1 = true ↔
      (check_motion d now (some f)).1.state = DState.motion_detected := by
    rcases hp : d.previous_frame with - | p
    · have hid : d.state = DState.idle := reachable_prev_none_idle d hreach hp
      rw [check_motion_prime d now f hp]
      simp [hid]
    · cases hs : d.state with
      | idle =>
        rw [check_motion_idle d now f p hp hs]
        unfold idleStep
        by_cases hc : d.threshold ≤ compare_frames d.previous_frame (some f) 5
        · simp [hc]
        · simp [hc, hs]
      | motion_detected =>
        rw [check_motion_motion d now f p hp hs]
        unfold motionStep
        by_cases hc : compare_frames d.baseline_frame (some f) 5 < d.threshold
        · simp [hc]
        · simp [hc, hs]
      | cooldown =>
        by_cases hexp : is_cooldown_expired d now = true
        · rw [check_motion_cooldown_expired d now f p hp hs hexp]
          unfold idleStep
          by_cases hc : ({ d with state := DState.idle, baseline_frame := some f } : MotionDetector).threshold ≤ compare_frames ({ d with state := DState.idle, baseline_frame := some f } : MotionDetector).previous_frame (some f) 5
          · simp [hc]
          · simp [hc]
        · rw [check_motion_cooldown_active d now f p hp hs (by simpa using hexp)]
          simp [hs]
  refine ⟨hmain, ?_⟩
  by_cases hb : (check_motion d now (some f)).2.1 = true
  · rw [hb, is_motion_active]
    simp [hmain.mp hb]
  · have hb' : (check_motion d now (some f)).2.1 = false := by simpa using hb
    have hstate : ¬ (check_motion d now (some f)).1.state = DState.motion_detected :=
      fun h => hb (hmain.mpr h)
    rw [hb', is_motion_active]
    simp [hstate]

/-- The primed detector is reachable from a fresh instance. -/
lemma reachable_dPrimed : Reachable dPrimed := by
  have h1 : (check_motion (MotionDetector.init 5 5) 0 (some fBlack)).1 = dPrimed := by
    simp [check_motion, MotionDetector.init, dPrimed]
  exact h1 ▸ Reachable.step _ 0 (some fBlack) (Reachable.base 5 5)

/-- The sustained-motion detector is reachable from a fresh instance. -/
lemma reachable_dMotionAfter : Reachable (dMotionAfter 1) := by
  have h2 : (check_motion dPrimed 1 (some fWhite)).1 = dMotionAfter 1 := by
    rw [check_motion_idle dPrimed 1 fWhite fBlack rfl rfl]
    norm_num [idleStep, dPrimed, dMotionAfter, MotionDetector.init, cmp_black_white]
  exact h2 ▸ Reachable.step _ 1 (some fWhite) reachable_dPrimed

/-- C10: the claim fails for a `None` frame: on a reachable detector in
`MotionDetected`, `check_motion(None)` returns `false` while the
post-call state is still `MotionDetected`, so `is_motion_active`
disagrees with the returned boolean. -/
theorem c10_counterexample :
    Reachable (dMotionAfter 1) ∧
    (dMotionAfter 1).state = DState.motion_detected ∧
    (check_motion (dMotionAfter 1) 2 none).2.1 = false ∧
    (check_motion (dMotionAfter 1) 2 none).1.state = DState.motion_detected ∧
    is_motion_active (check_motion (dMotionAfter 1) 2 none).1 = true :=
  ⟨reachable_dMotionAfter, rfl, rfl, rfl, rfl⟩

/-- C10 witness: the agreement theorem applied to the reachable primed
detector receiving a triggering frame. -/
theorem c10_bool_matches_state_witness :
    ((check_motion dPrimed 1 (some fWhite)).2.1 = true ↔
      (check_motion dPrimed 1 (some fWhite)).1.state = DState.motion_detected) ∧
    is_motion_active (check_motion dPrimed 1 (some fWhite)).1
      = (check_motion dPrimed 1 (some fWhite)).2.1 :=
  c10_bool_matches_state dPrimed reachable_dPrimed 1 fWhite

end PiWebcam
